import Mathlib

/-!
Shallow embedding of `src/scripts/deforum_helpers/depth.py` (class `DepthModel`).

The file under `src/` is the authority for the facade logic (`__new__`,
`_initialize`, `predict`, `blend_and_align_with_adabins`, `to_image`,
`delete_model`).  The four submodel libraries (`MidasDepth`, `ZoeDepth`,
`LeReSDepth`, `AdaBinsModel`) are imported by depth.py from sibling modules
that are not under `src/`; where their behaviour matters it is modelled from
the spec and marked as such in the doc comments.

Conventions of the embedding:
* devices and model directories are opaque `Nat` tokens;
* tensors are flat lists of rationals tagged with the device they live on
  (the spec's blend/normalisation arithmetic is exact on these inputs);
* the mutable Python singleton (`cls._instance`) becomes an explicit `Sys`
  state threaded through `new`; freshly constructed submodels receive a
  fresh identity token from a counter, so "the very same instance" is
  expressible as token equality;
* a Python attribute that may be `del`eted or never set is an `Option` field.
-/

/-- The three primary depth algorithms dispatched on by `DepthModel`
(`depth_algorithm` strings `'Zoe'`, `'Leres'`, else Midas). -/
inductive Algo
  | Midas
  | Zoe
  | Leres
deriving DecidableEq

/-- Embeds the object built by `MidasDepth(models_path, device, half_precision=...)`
(depth.py line 50).  `token` is the identity of this construction. -/
structure MidasDepthM where
  models_path : Nat
  device : Nat
  half_precision : Bool
  token : Nat
deriving DecidableEq

/-- Embeds the object built by `ZoeDepth(self.Width, self.Height)` (depth.py
line 46).  Modelled from the spec: its `predict` yields a tensor on the
model's native device, recorded here as `native_device`. -/
structure ZoeDepthM where
  width : Nat
  height : Nat
  native_device : Nat
  token : Nat
deriving DecidableEq

/-- Embeds the object built by
`LeReSDepth(width=448, height=448, models_path=..., checkpoint_name='res101.pth', backbone='resnext101')`
(depth.py line 48).  Modelled from the spec: its `predict` yields a tensor on
the model's native device, recorded here as `native_device`. -/
structure LeReSDepthM where
  width : Nat
  height : Nat
  models_path : Nat
  checkpoint_name : String
  backbone : String
  native_device : Nat
  token : Nat
deriving DecidableEq

/-- Embeds the object built by `AdaBinsModel(models_path, keep_in_vram=...)`
(depth.py line 52).  Modelled from the spec: the secondary model exposes an
`adabins_helper` attribute which the facade copies; it may be `None`. -/
structure AdaBinsM where
  models_path : Nat
  keep_in_vram : Bool
  adabins_helper : Option Nat
deriving DecidableEq

/-- The attribute state of a `DepthModel` instance.  Plain fields are the
attributes `_initialize` always assigns; `Option` fields are attributes that
may be absent (never assigned for this algorithm, or removed by
`delete_model`'s `del`). -/
structure DInstance where
  keep_in_vram : Bool
  Width : Nat
  Height : Nat
  depth_min : ℚ
  depth_max : ℚ
  device : Nat
  depth_algorithm : Algo
  midas_depth : Option MidasDepthM
  zoe_depth : Option ZoeDepthM
  leres_depth : Option LeReSDepthM
  adabins_model : Option AdaBinsM
  adabins_helper : Option Nat
  should_delete : Bool
deriving DecidableEq

/-- A bare object as produced by `super().__new__(cls)` before `_initialize`
runs: no submodel attributes exist.  The plain fields are placeholders —
`_initialize` overwrites every one of them before they can be read. -/
def blankInst : DInstance :=
  { keep_in_vram := false
    Width := 0
    Height := 0
    depth_min := 0
    depth_max := 0
    device := 0
    depth_algorithm := Algo.Midas
    midas_depth := none
    zoe_depth := none
    leres_depth := none
    adabins_model := none
    adabins_helper := none
    should_delete := false }

/-- `hasattr(cls._instance, 'midas_model')` (depth.py line 28).  No statement
in depth.py ever assigns an attribute named `midas_model` — the Midas
submodel is stored under `midas_depth` (line 50) and `delete_model` deletes
`midas_depth` (line 117) — so on every instance this module creates the test
is false. -/
def hasattr_midas_model (_ : DInstance) : Bool := false

/-- Behaviour supplied by code outside depth.py: the global
`cmd_opts.no_half` flag, what each submodel's predict returns (modelled from
the spec: a raw depth tensor on the model's native device), the native
devices of the submodels that are constructed without a device argument, and
the `adabins_helper` the AdaBins library yields for given construction
arguments.  `adabins_predict` models
`AdaBinsModel._instance.predict(img_pil, prev_img_cv2, use_adabins)`:
per the spec it reports non-use (first component `false`) rather than
raising on failure. -/
structure World where
  no_half : Bool
  zoe_native_device : Nat
  leres_native_device : Nat
  zoe_raw : Nat → Nat → List ℚ
  leres_raw : Nat → Nat → List ℚ
  midas_raw : Nat → Nat → Bool → List ℚ
  adabins_helper_of : Nat → Bool → Option Nat
  adabins_predict : Nat → Bool × List ℚ

/-- Embeds `DepthModel._initialize` (depth.py lines 36-55), the name adjusted
for Lean.  `self` is the attribute record the method runs on: a blank object
on the `super().__new__` path, the existing instance on the re-init path.
Exactly one primary submodel is constructed (Zoe with the requested
width/height, LeReS with the fixed 448×448 working resolution, otherwise
Midas with the models path, device and precision flag); when
`midas_weight < 1.0` an AdaBins secondary is constructed and its helper
copied, otherwise `adabins_helper` is set to `None` and the `adabins_model`
attribute is left untouched.  `tok` is the identity token given to the fresh
primary submodel. -/
def initModel (w : World) (self : DInstance) (models_path device : Nat)
    (half_precision keep_in_vram : Bool) (algo : Algo) (Width Height : Nat)
    (midas_weight : ℚ) (tok : Nat) : DInstance :=
  let self := { self with
    keep_in_vram := keep_in_vram
    Width := Width
    Height := Height
    depth_min := 1000
    depth_max := -1000
    device := device
    depth_algorithm := algo }
  let zoeNew : ZoeDepthM :=
    { width := Width, height := Height,
      native_device := w.zoe_native_device, token := tok }
  let leresNew : LeReSDepthM :=
    { width := 448, height := 448, models_path := models_path,
      checkpoint_name := "res101.pth", backbone := "resnext101",
      native_device := w.leres_native_device, token := tok }
  let midasNew : MidasDepthM :=
    { models_path := models_path, device := device,
      half_precision := half_precision, token := tok }
  let self :=
    match algo with
    | Algo.Zoe => { self with zoe_depth := some zoeNew }
    | Algo.Leres => { self with leres_depth := some leresNew }
    | Algo.Midas => { self with midas_depth := some midasNew }
  if midas_weight < 1 then
    let ab : AdaBinsM :=
      { models_path := models_path, keep_in_vram := keep_in_vram,
        adabins_helper := w.adabins_helper_of models_path keep_in_vram }
    { self with adabins_model := some ab, adabins_helper := ab.adabins_helper }
  else
    { self with adabins_helper := none }

/-- The process-wide singleton state: `DepthModel._instance` plus a counter
supplying identity tokens for fresh submodel constructions. -/
structure Sys where
  inst : Option DInstance
  next_tok : Nat
deriving DecidableEq

/-- The empty starting state (`DepthModel._instance = None`). -/
def emptySys : Sys := { inst := none, next_tok := 0 }

/-- Embeds `DepthModel.__new__` (depth.py lines 20-34).  Reinitialisation
happens when no instance exists, or
`(not keep_in_vram and not hasattr(cls._instance, 'midas_model'))`, or the
algorithm was switched, or the resolution changed; otherwise when
`cls._instance.should_delete and keep_in_vram` the existing instance is
re-initialised in place; otherwise the resident instance is returned as is.
In every case `should_delete` is then set to `not keep_in_vram`.  Returns
the updated singleton state and the instance handed to the caller. -/
def new (w : World) (s : Sys) (models_path device : Nat) (keep_in_vram : Bool)
    (algo : Algo) (Width Height : Nat) (midas_weight : ℚ) : Sys × DInstance :=
  match s.inst with
  | none =>
      let j := initModel w blankInst models_path device (!w.no_half)
        keep_in_vram algo Width Height midas_weight s.next_tok
      let i := { j with should_delete := !keep_in_vram }
      ({ inst := some i, next_tok := s.next_tok + 1 }, i)
  | some i0 =>
      let model_switched := decide (i0.depth_algorithm ≠ algo)
      let resolution_changed :=
        decide (i0.Width ≠ Width) || decide (i0.Height ≠ Height)
      if (!keep_in_vram && !(hasattr_midas_model i0)) || model_switched
          || resolution_changed then
        let j := initModel w blankInst models_path device (!w.no_half)
          keep_in_vram algo Width Height midas_weight s.next_tok
        let i := { j with should_delete := !keep_in_vram }
        ({ inst := some i, next_tok := s.next_tok + 1 }, i)
      else if i0.should_delete && keep_in_vram then
        let j := initModel w i0 models_path device (!w.no_half)
          keep_in_vram algo Width Height midas_weight s.next_tok
        let i := { j with should_delete := !keep_in_vram }
        ({ inst := some i, next_tok := s.next_tok + 1 }, i)
      else
        let i := { i0 with should_delete := !keep_in_vram }
        ({ inst := some i, next_tok := s.next_tok }, i)

/-- Embeds `DepthModel.delete_model` (depth.py lines 109-122): `del`s the
primary-model attribute selected by `depth_algorithm` (an `AttributeError`,
i.e. `none`, when it is already absent).  The `adabins_model` attribute is
not removed — only the external `AdaBinsModel.delete_model` is invoked on
it — so the facade's secondary fields are unchanged. -/
def delete_model (i : DInstance) : Option DInstance :=
  match i.depth_algorithm with
  | Algo.Zoe => i.zoe_depth.map (fun _ => { i with zoe_depth := none })
  | Algo.Leres => i.leres_depth.map (fun _ => { i with leres_depth := none })
  | Algo.Midas => i.midas_depth.map (fun _ => { i with midas_depth := none })

/-- `delete_model` called through the singleton: the class attribute
`DepthModel._instance` keeps pointing at the (mutated) object. -/
def sysDelete (s : Sys) : Option Sys :=
  match s.inst with
  | none => none
  | some i => (delete_model i).map (fun i2 => { s with inst := some i2 })

/-- A depth tensor: its values and the device it lives on. -/
structure Tensor where
  data : List ℚ
  device : Nat
deriving DecidableEq

/-- Embeds `DepthModel.blend_and_align_with_adabins` (depth.py lines 79-83):
rescale the primary tensor elementwise by `(50.0 - x) / 19.0`, blend it
elementwise with the secondary depth as `x * w + a * (1.0 - w)`, and move
the result (after the shape-only `expand_dims`/`squeeze`, which leaves the
values untouched) to the facade's device. -/
def blend_and_align_with_adabins (i : DInstance) (depth_tensor : Tensor)
    (adabins_depth : List ℚ) (midas_weight : ℚ) : Tensor :=
  let rescaled := depth_tensor.data.map (fun x => (50 - x) / 19)
  let blended := List.zipWith
    (fun x a => x * midas_weight + a * (1 - midas_weight)) rescaled adabins_depth
  { data := blended, device := i.device }

/-- The dispatch step of `DepthModel.predict` (depth.py lines 62-67): call
the resident primary submodel's own predict and, on the Zoe branch only,
apply `.to(self.device)`.  The LeReS input scaling `astype(np.float32)/255.0`
is part of the opaque `leres_raw`.  `none` models the `AttributeError`
raised when the selected submodel attribute does not exist. -/
def predictRaw (w : World) (i : DInstance) (img : Nat)
    (half_precision : Bool) : Option Tensor :=
  match i.depth_algorithm with
  | Algo.Zoe =>
      i.zoe_depth.map (fun z =>
        { data := w.zoe_raw z.token img, device := i.device })
  | Algo.Leres =>
      i.leres_depth.map (fun l =>
        { data := w.leres_raw l.token img, device := l.native_device })
  | Algo.Midas =>
      i.midas_depth.map (fun m =>
        { data := w.midas_raw m.token img half_precision, device := m.device })

/-- Embeds `DepthModel.predict` (depth.py lines 57-77): compute
`use_adabins = midas_weight < 1.0 and self.adabins_helper is not None`,
dispatch to the primary model, then, when `use_adabins`, ask the AdaBins
singleton; if it reports use, blend, otherwise return the primary tensor
unmodified. -/
def predict (w : World) (i : DInstance) (img : Nat) (midas_weight : ℚ)
    (half_precision : Bool) : Option Tensor :=
  let use_adabins := decide (midas_weight < 1) && i.adabins_helper.isSome
  (predictRaw w i img half_precision).map (fun t =>
    if use_adabins then
      let r := w.adabins_predict img
      if r.1 then blend_and_align_with_adabins i t r.2 midas_weight else t
    else t)

/-- `depth.min()` of numpy on the nonempty arrays `to_image` receives; the
`[]` value is a placeholder (numpy raises there, and no source call site
passes an empty tensor). -/
def tensorMin : List ℚ → ℚ
  | [] => 0
  | x :: xs => List.foldl min x xs

/-- `depth.max()`, as `tensorMin`. -/
def tensorMax : List ℚ → ℚ
  | [] => 0
  | x :: xs => List.foldl max x xs

/-- The normalisation denominator of `DepthModel.to_image` (depth.py line
102): `max(1e-8, self.depth_max - self.depth_min)` evaluated on the bounds
already widened by the current tensor. -/
def toImageDenom (i : DInstance) (depth : List ℚ) : ℚ :=
  max (1 / 100000000)
    (max i.depth_max (tensorMax depth) - min i.depth_min (tensorMin depth))

/-- Embeds `DepthModel.to_image` (depth.py lines 98-104): widen the running
bounds with the tensor's min/max, then map each value to
`(x - depth_min) / denom * 255`.  The channel replication and the `uint8`
cast of line 104 only repackage these per-pixel values.  Returns the updated
instance and the normalised values. -/
def to_image (i : DInstance) (depth : List ℚ) : DInstance × List ℚ :=
  let dmin := min i.depth_min (tensorMin depth)
  let dmax := max i.depth_max (tensorMax depth)
  let denom := toImageDenom i depth
  ({ i with depth_min := dmin, depth_max := dmax },
    depth.map (fun x => (x - dmin) / denom * 255))

/-- A concrete environment used by the concrete runs below: the facade is
asked for device `0`, while the Zoe and LeReS libraries (which are
constructed without a device argument) hold their weights on devices `2`
and `1`. -/
def w0 : World :=
  { no_half := false
    zoe_native_device := 2
    leres_native_device := 1
    zoe_raw := fun _ _ => [3, 4]
    leres_raw := fun _ _ => [7]
    midas_raw := fun _ _ _ => [2]
    adabins_helper_of := fun _ _ => some 0
    adabins_predict := fun _ => (false, [0]) }

/-- First construction request: `DepthModel(0, 0, keep_in_vram=True,
depth_algorithm='Midas', Width=512, Height=512, midas_weight=1.0)` from the
empty singleton. -/
def keepRun : Sys × DInstance := new w0 emptySys 0 0 true Algo.Midas 512 512 1

/-- The singleton after `delete_model()` is called on the resident
instance. -/
def postDeleteSys : Sys := (sysDelete keepRun.1).getD emptySys

/-- The next construction request after the deletion, with the retention
flag set and an identical configuration. -/
def postDeleteRun : Sys × DInstance :=
  new w0 postDeleteSys 0 0 true Algo.Midas 512 512 1

/-- C1: the spec demands that after `delete_model` the next construction
request, for any retention flag, fully reinitialises and never reuses the
deleted model.  The code violates this: `__new__`'s staleness test reads
`hasattr(cls._instance, 'midas_model')` — an attribute no code ever creates
(the submodel lives under `midas_depth`) — and consults it only when
`keep_in_vram` is false, so a retention request after `delete_model` with a
matching configuration takes no reinitialisation branch: the token counter
is unchanged, the primary-model attribute is still absent, and `predict`
hits an `AttributeError` (`none`). -/
theorem C1_delete_then_retention_reuses_deleted_model :
    (sysDelete keepRun.1).isSome = true ∧
    postDeleteRun.1.next_tok = postDeleteSys.next_tok ∧
    postDeleteRun.2.midas_depth = none ∧
    predict w0 postDeleteRun.2 0 1 true = none := by
  decide

/-- A follow-up construction request on the live, retained resident
instance, identical configuration, but without the retention flag. -/
def nonRetRun : Sys × DInstance := new w0 keepRun.1 0 0 false Algo.Midas 512 512 1

/-- C2: the spec's trigger list says that with a matching configuration, a
live primary model, and the previous request having asked for retention, a
request without retention causes no reinitialisation.  The code violates
this: because `hasattr(cls._instance, 'midas_model')` is false on every
instance (no such attribute is ever assigned), `not keep_in_vram` alone
fires the reinitialisation branch — the token counter advances and a fresh
primary submodel replaces the resident one. -/
theorem C2_nonretention_always_reinitialises :
    keepRun.2.should_delete = false ∧
    keepRun.2.midas_depth.isSome = true ∧
    nonRetRun.1.next_tok = keepRun.1.next_tok + 1 ∧
    nonRetRun.2.midas_depth ≠ keepRun.2.midas_depth := by
  decide

/-- Projections of a freshly initialised instance: `_initialize`
unconditionally records the requested algorithm, width and height and resets
the running bounds to 1000 / -1000. -/
theorem initModel_proj (w : World) (self : DInstance) (mp dev : Nat)
    (hp k : Bool) (algo : Algo) (W H : Nat) (mw : ℚ) (tok : Nat) :
    (initModel w self mp dev hp k algo W H mw tok).depth_algorithm = algo ∧
    (initModel w self mp dev hp k algo W H mw tok).Width = W ∧
    (initModel w self mp dev hp k algo W H mw tok).Height = H ∧
    (initModel w self mp dev hp k algo W H mw tok).depth_min = 1000 ∧
    (initModel w self mp dev hp k algo W H mw tok).depth_max = -1000 := by
  unfold initModel
  cases algo <;> dsimp only <;> split <;> simp

/-- After any construction request the singleton points at the returned
instance, which carries the requested configuration and
`should_delete = not keep_in_vram`. -/
theorem new_post (w : World) (s : Sys) (mp dev : Nat) (k : Bool) (algo : Algo)
    (W H : Nat) (mw : ℚ) :
    (new w s mp dev k algo W H mw).1.inst = some (new w s mp dev k algo W H mw).2 ∧
    (new w s mp dev k algo W H mw).2.depth_algorithm = algo ∧
    (new w s mp dev k algo W H mw).2.Width = W ∧
    (new w s mp dev k algo W H mw).2.Height = H ∧
    (new w s mp dev k algo W H mw).2.should_delete = !k := by
  have hI := fun self tok =>
    initModel_proj w self mp dev (!w.no_half) k algo W H mw tok
  unfold new
  match hs : s.inst with
  | none =>
      refine ⟨rfl, ?_, ?_, ?_, rfl⟩ <;>
        simp [(hI blankInst s.next_tok).1, (hI blankInst s.next_tok).2.1,
              (hI blankInst s.next_tok).2.2.1]
  | some i0 =>
      dsimp only
      split
      · refine ⟨rfl, ?_, ?_, ?_, rfl⟩ <;>
          simp [(hI blankInst s.next_tok).1, (hI blankInst s.next_tok).2.1,
                (hI blankInst s.next_tok).2.2.1]
      · split
        · refine ⟨rfl, ?_, ?_, ?_, rfl⟩ <;>
            simp [(hI i0 s.next_tok).1, (hI i0 s.next_tok).2.1,
                  (hI i0 s.next_tok).2.2.1]
        · rename_i hcond hcond2
          simp only [Bool.or_eq_true, Bool.and_eq_true, not_or] at hcond
          refine ⟨rfl, ?_, ?_, ?_, rfl⟩ <;> simp_all

/-- The no-op branch of `__new__`: a retention request against a resident
instance whose configuration matches and whose `should_delete` flag is clear
returns the resident instance unchanged and consumes no token. -/
theorem new_noop (w : World) (s : Sys) (i0 : DInstance) (mp dev : Nat)
    (algo : Algo) (W H : Nat) (mw : ℚ) (hs : s.inst = some i0)
    (ha : i0.depth_algorithm = algo) (hW : i0.Width = W) (hH : i0.Height = H)
    (hsd : i0.should_delete = false) :
    new w s mp dev true algo W H mw
      = ({ inst := some i0, next_tok := s.next_tok }, i0) := by
  unfold new
  rw [hs]
  cases i0
  simp_all [hasattr_midas_model]

/-- C3: for a fixed configuration, two consecutive construction requests that
both ask for retention return the very same instance (hence the very same
primary-model submodel, token included), and the second request performs no
reconstruction (the token counter is unchanged). -/
theorem C3_retention_reuses_instance (w : World) (s : Sys) (mp dev : Nat)
    (algo : Algo) (W H : Nat) (mw : ℚ) :
    (new w (new w s mp dev true algo W H mw).1 mp dev true algo W H mw).2
      = (new w s mp dev true algo W H mw).2 ∧
    (new w (new w s mp dev true algo W H mw).1 mp dev true algo W H mw).1.next_tok
      = (new w s mp dev true algo W H mw).1.next_tok := by
  obtain ⟨h1, h2, h3, h4, h5⟩ := new_post w s mp dev true algo W H mw
  rw [new_noop w _ _ mp dev algo W H mw h1 h2 h3 h4 (by simpa using h5)]
  exact ⟨rfl, rfl⟩

/-- C5: a change in requested width or height against a resident Midas or
Zoe instance fires the reinitialisation branch (a token is consumed: full
reconstruction), while the LeReS path is unaffected by the requested
width/height — every LeReS construction uses the fixed internal working
resolution 448×448, whatever `Width`/`Height` the caller asked for. -/
theorem C5_resolution_change_reconstructs_leres_fixed (w : World) (s : Sys)
    (i0 : DInstance) (mp dev : Nat) (k : Bool) (algo : Algo) (W H : Nat)
    (mw : ℚ) (hs : s.inst = some i0)
    (halg : i0.depth_algorithm = Algo.Midas ∨ i0.depth_algorithm = Algo.Zoe)
    (hres : i0.Width ≠ W ∨ i0.Height ≠ H) :
    (new w s mp dev k algo W H mw).1.next_tok = s.next_tok + 1 ∧
    (∀ (self : DInstance) (hp kv : Bool) (W2 H2 : Nat) (mw2 : ℚ) (tok : Nat),
      (initModel w self mp dev hp kv Algo.Leres W2 H2 mw2 tok).leres_depth
        = some { width := 448, height := 448, models_path := mp,
                 checkpoint_name := "res101.pth", backbone := "resnext101",
                 native_device := w.leres_native_device, token := tok }) := by
  constructor
  · unfold new
    rw [hs]
    dsimp only
    rcases hres with h | h <;> simp [h]
  · intro self hp kv W2 H2 mw2 tok
    unfold initModel
    dsimp only
    split <;> rfl

/-- Witness for C5: from the resident Midas 512×512 instance of `keepRun`, a
request for 600×512 consumes a fresh token; and a LeReS initialisation
requested at 512×512 still constructs the submodel at 448×448. -/
theorem C5_resolution_change_witness :
    (new w0 keepRun.1 0 0 true Algo.Midas 600 512 1).1.next_tok
      = keepRun.1.next_tok + 1 ∧
    (initModel w0 blankInst 0 0 true true Algo.Leres 512 512 1 0).leres_depth
      = some { width := 448, height := 448, models_path := 0,
               checkpoint_name := "res101.pth", backbone := "resnext101",
               native_device := 1, token := 0 } :=
  have h := C5_resolution_change_reconstructs_leres_fixed w0 keepRun.1
    keepRun.2 0 0 true Algo.Midas 600 512 1 (by decide)
    (Or.inl (by decide)) (Or.inl (by decide))
  ⟨h.1, h.2 blankInst true true 512 512 1 0⟩

/-- A LeReS facade as `_initialize` builds it for device 0 under `w0`: the
LeReS submodel (constructed without a device argument) holds its weights on
its own native device 1 while the facade's configured device is 0. -/
def leresInst : DInstance :=
  { initModel w0 blankInst 0 0 true true Algo.Leres 512 512 1 0 with
    should_delete := false }

/-- Counterexample to C4: on the LeReS path `predict` applies no
`.to(self.device)` (depth.py line 65), so the returned tensor stays on the
submodel's native device (1) instead of the facade's configured device
(0). -/
theorem C4_counterexample_leres_not_moved :
    (predict w0 leresInst 0 1 true).map Tensor.device = some 1 ∧
    leresInst.device = 0 ∧
    (predict w0 leresInst 0 1 true).map Tensor.device ≠ some leresInst.device := by
  decide

/-- C4 amended: only the Zoe branch moves the raw depth tensor to the
facade's configured device; the LeReS and Midas branches return the tensor
on the submodel's own device (for Midas, the device it was constructed
with). -/
theorem C4_raw_tensor_device (w : World) (i : DInstance) (img : Nat)
    (hp : Bool) :
    (i.depth_algorithm = Algo.Zoe →
      ∀ z, i.zoe_depth = some z →
        predictRaw w i img hp
          = some { data := w.zoe_raw z.token img, device := i.device }) ∧
    (i.depth_algorithm = Algo.Leres →
      ∀ l, i.leres_depth = some l →
        predictRaw w i img hp
          = some { data := w.leres_raw l.token img,
                   device := l.native_device }) ∧
    (i.depth_algorithm = Algo.Midas →
      ∀ m, i.midas_depth = some m →
        predictRaw w i img hp
          = some { data := w.midas_raw m.token img hp,
                   device := m.device }) := by
  refine ⟨?_, ?_, ?_⟩ <;> intro h x hx <;> simp [predictRaw, h, hx]

/-- Witness for the amended C4, on the LeReS branch of `leresInst`. -/
theorem C4_raw_tensor_device_witness :
    predictRaw w0 leresInst 0 true = some { data := [7], device := 1 } :=
  (C4_raw_tensor_device w0 leresInst 0 true).2.1 (by decide)
    { width := 448, height := 448, models_path := 0,
      checkpoint_name := "res101.pth", backbone := "resnext101",
      native_device := 1, token := 0 } (by decide)

/-- Elementwise value of the rescale-then-blend pipeline on plain lists. -/
theorem blend_elem (l1 l2 : List ℚ) (mw : ℚ) (k : Nat)
    (h1 : k < l1.length) (h2 : k < l2.length) :
    (List.zipWith (fun x a => x * mw + a * (1 - mw))
        (l1.map (fun x => (50 - x) / 19)) l2).getD k 0
      = (50 - l1.getD k 0) / 19 * mw + l2.getD k 0 * (1 - mw) := by
  induction l1 generalizing l2 k with
  | nil => simp at h1
  | cons x xs ih =>
      cases l2 with
      | nil => simp at h2
      | cons a as =>
          cases k with
          | zero => simp
          | succ n => simpa using ih as n (by simpa using h1) (by simpa using h2)

/-- C6: the blend step computes exactly `(50 - D) / 19` elementwise followed
by `D * w + A * (1 - w)` (the squeeze leaves the values unchanged); on
`D = [50, 50]`, `A = [0, 1]`, `w = 1/2` the result is `[0, 1/2]`. -/
theorem C6_blend_formula (i : DInstance) (D : Tensor) (A : List ℚ) (mw : ℚ)
    (k : Nat) (h1 : k < D.data.length) (h2 : k < A.length) :
    (blend_and_align_with_adabins i D A mw).data.getD k 0
      = (50 - D.data.getD k 0) / 19 * mw + A.getD k 0 * (1 - mw) ∧
    (blend_and_align_with_adabins i { data := [50, 50], device := i.device }
        [0, 1] (1 / 2)).data = [0, 1 / 2] := by
  constructor
  · simpa [blend_and_align_with_adabins] using blend_elem D.data A mw k h1 h2
  · simp [blend_and_align_with_adabins]
    norm_num

/-- Witness for C6 at index 1 of the spec's concrete example. -/
theorem C6_blend_formula_witness :
    (blend_and_align_with_adabins blankInst { data := [50, 50], device := 0 }
        [0, 1] (1 / 2)).data.getD 1 0
      = (50 - ([50, 50] : List ℚ).getD 1 0) / 19 * (1 / 2)
        + ([0, 1] : List ℚ).getD 1 0 * (1 - 1 / 2) :=
  (C6_blend_formula blankInst { data := [50, 50], device := 0 } [0, 1] (1 / 2)
    1 (by decide) (by decide)).1

/-- C7: when the AdaBins singleton reports non-use (its first result
component is false), `predict` returns the primary tensor unmodified — the
blend never runs — and the call fails exactly when the primary dispatch
itself fails, so nothing from the secondary path is propagated as an
error. -/
theorem C7_secondary_failure_swallowed (w : World) (i : DInstance) (img : Nat)
    (mw : ℚ) (hp : Bool) (hfail : (w.adabins_predict img).1 = false) :
    predict w i img mw hp = predictRaw w i img hp ∧
    (predict w i img mw hp).isSome = (predictRaw w i img hp).isSome := by
  have h : predict w i img mw hp = predictRaw w i img hp := by
    unfold predict
    cases hr : predictRaw w i img hp with
    | none => rfl
    | some t => simp [hfail]
  exact ⟨h, by rw [h]⟩

/-- A Midas facade initialised with `midas_weight = 1/2` under `w0`, so an
AdaBins helper is present. -/
def blendInst : DInstance :=
  { initModel w0 blankInst 0 0 true true Algo.Midas 512 512 (1 / 2) 0 with
    should_delete := false }

/-- Witness for C7: under `w0` the AdaBins singleton reports non-use, and
`predict` on a facade with a live helper and blending weight 1/2 returns the
unblended primary tensor. -/
theorem C7_secondary_failure_witness :
    predict w0 blendInst 0 (1 / 2) true = predictRaw w0 blendInst 0 true :=
  (C7_secondary_failure_swallowed w0 blendInst 0 (1 / 2) true (by decide)).1

/-- C8: initialising with blend weight exactly 1.0 constructs no secondary
model (the `adabins_model` attribute is exactly what it was before, and the
`adabins_helper` reference is cleared to `None`), and a `predict` call with
blend weight 1.0 never invokes the secondary model or the blend step: it is
the bare primary dispatch. -/
theorem C8_weight_one_no_secondary :
    (∀ (w : World) (self : DInstance) (mp dev : Nat) (hp k : Bool)
        (algo : Algo) (W H : Nat) (tok : Nat),
      (initModel w self mp dev hp k algo W H 1 tok).adabins_helper = none ∧
      (initModel w self mp dev hp k algo W H 1 tok).adabins_model
        = self.adabins_model) ∧
    (∀ (w : World) (i : DInstance) (img : Nat) (hp : Bool),
      predict w i img 1 hp = predictRaw w i img hp) := by
  constructor
  · intro w self mp dev hp k algo W H tok
    unfold initModel
    have hlt : ¬ ((1 : ℚ) < 1) := lt_irrefl 1
    cases algo <;> simp [hlt]
  · intro w i img hp
    unfold predict
    have hlt : decide ((1 : ℚ) < 1) = false := by simp
    simp [hlt]

/-- One `to_image` call only widens the running bounds. -/
theorem to_image_step (i : DInstance) (d : List ℚ) :
    (to_image i d).1.depth_min ≤ i.depth_min ∧
    i.depth_max ≤ (to_image i d).1.depth_max := by
  unfold to_image
  exact ⟨min_le_left _ _, le_max_left _ _⟩

/-- C9: across every sequence of `to_image` calls on the same instance the
running `depth_min` never increases and the running `depth_max` never
decreases, and the bounds are reset (to 1000 and -1000) exactly by
`_initialize`, i.e. only on reinitialisation. -/
theorem C9_to_image_bounds_monotone :
    (∀ (i : DInstance) (ds : List (List ℚ)),
      (List.foldl (fun a d => (to_image a d).1) i ds).depth_min ≤ i.depth_min ∧
      i.depth_max ≤ (List.foldl (fun a d => (to_image a d).1) i ds).depth_max) ∧
    (∀ (w : World) (self : DInstance) (mp dev : Nat) (hp k : Bool)
        (algo : Algo) (W H : Nat) (mw : ℚ) (tok : Nat),
      (initModel w self mp dev hp k algo W H mw tok).depth_min = 1000 ∧
      (initModel w self mp dev hp k algo W H mw tok).depth_max = -1000) := by
  constructor
  · intro i ds
    induction ds generalizing i with
    | nil => exact ⟨le_refl _, le_refl _⟩
    | cons d ds ih =>
        simp only [List.foldl_cons]
        obtain ⟨ih1, ih2⟩ := ih (to_image i d).1
        obtain ⟨s1, s2⟩ := to_image_step i d
        exact ⟨le_trans ih1 s1, le_trans s2 ih2⟩
  · intro w self mp dev hp k algo W H mw tok
    exact ⟨(initModel_proj w self mp dev hp k algo W H mw tok).2.2.2.1,
           (initModel_proj w self mp dev hp k algo W H mw tok).2.2.2.2⟩

/-- A freshly initialised Midas facade (running bounds 1000 / -1000). -/
def freshInst : DInstance := initModel w0 blankInst 0 0 true true Algo.Midas 512 512 1 0

/-- C10: the normalisation denominator of `to_image` is bounded below by
`1e-8`, hence strictly positive — no division by zero — and on the constant
tensor `[5, 5]` (updated min = updated max = 5) the denominator is exactly
`1e-8` and the image values are well defined (all zero). -/
theorem freshInst_widened_min :
    min freshInst.depth_min (tensorMin [(5 : ℚ), 5]) = 5 := by
  have e1 : tensorMin [(5 : ℚ), 5] = 5 := by simp [tensorMin]
  have e2 : freshInst.depth_min = 1000 := rfl
  rw [e1, e2, min_eq_right (by norm_num : (5 : ℚ) ≤ 1000)]

theorem freshInst_denom :
    toImageDenom freshInst [5, 5] = 1 / 100000000 := by
  have e1 : tensorMax [(5 : ℚ), 5] = 5 := by simp [tensorMax]
  have e2 : freshInst.depth_max = -1000 := rfl
  unfold toImageDenom
  rw [e1, e2, freshInst_widened_min,
    max_eq_right (by norm_num : (-1000 : ℚ) ≤ 5)]
  have e3 : (5 : ℚ) - 5 = 0 := by norm_num
  rw [e3, max_eq_left (by norm_num : (0 : ℚ) ≤ 1 / 100000000)]

theorem C10_to_image_denominator_positive :
    (∀ (i : DInstance) (d : List ℚ),
      1 / 100000000 ≤ toImageDenom i d ∧ 0 < toImageDenom i d) ∧
    toImageDenom freshInst [5, 5] = 1 / 100000000 ∧
    (to_image freshInst [5, 5]).2 = [0, 0] := by
  refine ⟨fun i d => ?_, freshInst_denom, ?_⟩
  · have h : (1 : ℚ) / 100000000 ≤ toImageDenom i d := le_max_left _ _
    exact ⟨h, lt_of_lt_of_le (by norm_num) h⟩
  · unfold to_image
    simp only [freshInst_widened_min, freshInst_denom, List.map]
    norm_num
